import Mathlib

/-!
Verification of the water-quality statistics / outlier-detection engine
(Flask API `app/app.py`, batch cleaner `main.py` / `app/main.py`).

Numbers are modelled as rationals (ℚ). The Python code computes the
standard deviation `σ = sqrt(var)` with floats; every comparison the code
makes against `σ` is decided here by the equivalent exact rational
comparison against the population variance `var = σ²` (for `k > 0`,
`|x−μ|/σ > k ↔ (x−μ)² > k²·var`; the degenerate signs are handled
case-by-case where they can occur).
-/

namespace ClassProject

/-- Outcome of an API handler: a JSON payload or a 400 validation error
(`jsonify({"error": ...}), 400` in the Flask code). -/
inductive ApiResult (α : Type) where
  | ok (value : α)
  | validationError (msg : String)
deriving DecidableEq, Repr

/-- A stored document, restricted to the three numeric fields the engine
reads (`temperature`, `salinity`, `odo`); any of them may be null. -/
structure Observation where
  temperature : Option ℚ
  salinity : Option ℚ
  odo : Option ℚ
deriving DecidableEq, Repr

/-- `doc[field]` for the three recognized numeric field names. -/
def Observation.getField (o : Observation) (f : String) : Option ℚ :=
  if f = "temperature" then o.temperature
  else if f = "salinity" then o.salinity
  else if f = "odo" then o.odo
  else none

/-- `collection.find({field: {"$ne": None}})` followed by
`[doc[field] for doc in docs if field in doc and doc[field] is not None]`:
the in-order non-null values of one field. -/
def extractValues (coll : List Observation) (f : String) : List ℚ :=
  coll.filterMap (fun o => o.getField f)

/-- `np.mean(values)` (junk value 0 on the empty list, which the code
never reaches: every use is guarded by a non-emptiness check). -/
def listMean (l : List ℚ) : ℚ := l.sum / l.length

/-- `np.var` with `ddof=0`, i.e. the population variance; this is the
square of `np.std(values)`. -/
def popVar (l : List ℚ) : ℚ := ((l.map (fun x => (x - listMean l) ^ 2)).sum) / l.length

/-- `np.min(values)`. -/
def listMin : List ℚ → ℚ
  | [] => 0
  | x :: xs => xs.foldl min x

/-- `np.max(values)`. -/
def listMax : List ℚ → ℚ
  | [] => 0
  | x :: xs => xs.foldl max x

/-- The ascending sort `np.percentile` performs internally. -/
def sortedVals (l : List ℚ) : List ℚ := l.insertionSort (· ≤ ·)

/-- Linear interpolation at fractional position `h` into the sorted array
`s`: the value `s[⌊h⌋] + (h − ⌊h⌋)·(s[⌊h⌋+1] − s[⌊h⌋])`. -/
def interpAt (s : List ℚ) (h : ℚ) : ℚ :=
  let i : ℕ := (Int.floor h).toNat
  let lo := s.getD i 0
  let hi := s.getD (i + 1) lo
  lo + (h - (i : ℚ)) * (hi - lo)

/-- `np.percentile(values, p)` with the default linear interpolation:
position `h = (p/100)·(n−1)` into the sorted values. -/
def percentile (values : List ℚ) (p : ℚ) : ℚ :=
  interpAt (sortedVals values) (p / 100 * ((values.length : ℚ) - 1))

/-- The per-field statistics dict built by `get_stats` (`app/app.py`
lines 115–139): keys `count`, `mean`, `min`, `max` and the nested
`percentiles` object with keys `25`, `50`, `75`; all-null fields when the
sample set is empty. -/
structure Percentiles where
  p25 : Option ℚ
  p50 : Option ℚ
  p75 : Option ℚ
deriving DecidableEq, Repr

structure FieldStats where
  count : ℕ
  mean : Option ℚ
  min : Option ℚ
  max : Option ℚ
  percentiles : Percentiles
deriving DecidableEq, Repr

/-- The JSON keys of the per-field stats object, exactly as the dict
literal in `get_stats` spells them. -/
def fieldStatsKeys : List String := ["count", "mean", "min", "max", "percentiles"]

def get_stats_field (values : List ℚ) : FieldStats :=
  if values = [] then
    { count := 0, mean := none, min := none, max := none
      percentiles := { p25 := none, p50 := none, p75 := none } }
  else
    { count := values.length
      mean := some (listMean values)
      min := some (listMin values)
      max := some (listMax values)
      percentiles :=
        { p25 := some (percentile values 25)
          p50 := some (percentile values 50)
          p75 := some (percentile values 75) } }

/-- `get_stats`: one stats object per numeric field, over the current
collection. -/
def get_stats (coll : List Observation) : List (String × FieldStats) :=
  ["temperature", "salinity", "odo"].map
    (fun f => (f, get_stats_field (extractValues coll f)))

/-- Every numeric (non-null, rational-valued) entry appearing in a
per-field stats object, in dict order. -/
def statsNumericEntries (s : FieldStats) : List ℚ :=
  [s.mean, s.min, s.max, s.percentiles.p25, s.percentiles.p50, s.percentiles.p75].filterMap id

/-- The `str.lower()` call of Python on the method selector (all selectors involved
are ASCII): lowercase every character. Extensionally `String.toLower`. -/
def strLower (s : String) : String := ⟨s.data.map Char.toLower⟩

/-- The `k` request argument as the handler sees it: absent, a string that
`float(...)` parses (its value), or a string `float(...)` rejects. -/
inductive KParam where
  | missing
  | num (q : ℚ)
  | notNumeric
deriving DecidableEq, Repr

/-- Exact rational decision of `|x − μ| / σ > k` where `σ = sqrt var` and
`var > 0`: for `k > 0` square both (non-negative) sides; for `k < 0` the
left side is ≥ 0 > k·σ, so it always holds; for `k = 0` it is `|x−μ| > 0`. -/
def zAbsGt (x mu var k : ℚ) : Bool :=
  if 0 < k then decide (k ^ 2 * var < (x - mu) ^ 2)
  else if k < 0 then true
  else decide (0 < (x - mu) ^ 2)

/-- The IQR branch of `get_outliers` (lines 183–192): flagged iff strictly
outside `[Q1 − k·IQR, Q3 + k·IQR]`; returns `(index, value)` pairs in
input order. -/
def iqrOutliers (values : List ℚ) (k : ℚ) : List (ℕ × ℚ) :=
  let q1 := percentile values 25
  let q3 := percentile values 75
  let iqr := q3 - q1
  let lowerBound := q1 - k * iqr
  let upperBound := q3 + k * iqr
  values.enum.filter (fun iv => decide (iv.2 < lowerBound ∨ upperBound < iv.2))

/-- The z-score branch of `get_outliers` (lines 194–205): zero outliers
when `np.std(values) == 0` (equivalently `var = 0`), otherwise flagged iff
`|value − mean| / std > k`. -/
def zscoreOutliers (values : List ℚ) (k : ℚ) : List (ℕ × ℚ) :=
  let mu := listMean values
  let var := popVar values
  if var = 0 then []
  else values.enum.filter (fun iv => zAbsGt iv.2 mu var k)

/-- `get_outliers` (`app/app.py` lines 146–210). Validation order follows
the code: missing/empty field, unrecognized field, unrecognized method
(after lowercasing, default `"iqr"`), unparseable `k` (default string
`"1.5"`); then the empty sample set succeeds with zero outliers. The
result carries each flagged sample as its `(index, value)` pair (the code
returns `docs[i]`, whose `field` entry is `values[i]`). -/
def get_outliers (coll : List Observation) (field : Option String)
    (methodArg : Option String) (kArg : KParam) : ApiResult (List (ℕ × ℚ)) :=
  let method := strLower (methodArg.getD "iqr")
  match field with
  | none => .validationError "field parameter is required"
  | some f =>
    if f = "" then .validationError "field parameter is required"
    else if f ∉ (["temperature", "salinity", "odo"] : List String) then
      .validationError "field must be one of: temperature, salinity, odo"
    else if method ∉ (["iqr", "z-score"] : List String) then
      .validationError "method must be 'iqr' or 'z-score'"
    else
      match kArg with
      | .notNumeric => .validationError "k must be a valid number"
      | _ =>
        let k : ℚ := match kArg with | .num q => q | _ => 3 / 2
        let values := extractValues coll f
        if values = [] then .ok []
        else if method = "iqr" then .ok (iqrOutliers values k)
        else .ok (zscoreOutliers values k)

/-! ## Batch cleaner (`main.py`; `app/main.py` is the same pipeline) -/

/-- A raw CSV cell of a numeric column before `pd.to_numeric(errors="coerce")`:
either a numeric value or non-numeric/unparseable text. -/
inductive Cell where
  | num (q : ℚ)
  | text
deriving DecidableEq, Repr

/-- `pd.to_numeric(..., errors="coerce")` on one cell: non-numeric becomes
null (NaN) for that cell only. -/
def Cell.toNumeric : Cell → Option ℚ
  | .num q => some q
  | .text => none

/-- A raw input row, restricted to the three numeric columns the cleaner
z-scores (`Temperature (c)`, `Salinity (ppt)`, `ODO mg/L`, persisted as
`temperature`, `salinity`, `odo`). -/
structure RawRow where
  temperature : Cell
  salinity : Cell
  odo : Cell
deriving DecidableEq, Repr

/-- Step 1 of the pipeline: coerce the three numeric columns of one row. -/
def coerceRow (r : RawRow) : Observation :=
  ⟨r.temperature.toNumeric, r.salinity.toNumeric, r.odo.toNumeric⟩

/-- The non-null values of one column (pandas `mean` and `std` skip NaN). -/
def colValues (rows : List Observation) (f : String) : List ℚ :=
  rows.filterMap (fun r => r.getField f)

/-- `df[col].mean()`: dataset-wide mean over the non-null values. (On an
all-null column pandas yields NaN and this junk 0; no comparison consults
it then: a row only reaches the statistics of a column when it has a value
there, so the column is non-empty.) -/
def colMean (rows : List Observation) (f : String) : ℚ :=
  listMean (colValues rows f)

/-- The square of `df[col].std(ddof=0)`: dataset-wide population variance
over the non-null values. -/
def colVar (rows : List Observation) (f : String) : ℚ :=
  popVar (colValues rows f)

/-- The fixed cleaning threshold `THRESH = 3.0`. -/
def THRESH : ℚ := 3

/-- The contribution of one cell to `z.abs() > THRESH`: false on a missing
value (its z is NaN) and on a zero-variance column (whose std was replaced
by NaN, `stds.replace(0, np.nan)`); otherwise `|x − μ|/σ > 3`, decided
exactly as `(x − μ)² > 3²·σ²`. -/
def zFlagCell (x? : Option ℚ) (mu var : ℚ) : Bool :=
  match x? with
  | some x => if var = 0 then false else decide (THRESH ^ 2 * var < (x - mu) ^ 2)
  | none => false

/-- `is_outlier` for one row: `(z.abs() > THRESH).any(axis=1)`, the
statistics being those of the whole dataset `rows` before any removal. -/
def rowIsOutlier (rows : List Observation) (r : Observation) : Bool :=
  zFlagCell r.temperature (colMean rows "temperature") (colVar rows "temperature") ||
  zFlagCell r.salinity (colMean rows "salinity") (colVar rows "salinity") ||
  zFlagCell r.odo (colMean rows "odo") (colVar rows "odo")

/-- The printed cleaning report `{rows_total, rows_removed, rows_remaining}`. -/
structure CleaningReport where
  rows_total : ℕ
  rows_removed : ℕ
  rows_remaining : ℕ
deriving DecidableEq, Repr

/-- `df_clean.dropna(subset=NUMERIC_COLS)` drops this row: some numeric
field is still null after coercion. -/
def hasNullNumeric (r : Observation) : Bool :=
  r.temperature.isNone || r.salinity.isNone || r.odo.isNone

/-- The batch cleaning pipeline (`main.py` lines 28–53): coerce the three
numeric columns, flag multivariate outliers against whole-dataset
statistics, report `total`, `removed = is_outlier.sum()` and
`remaining = total − removed` (computed before the null-drop), then drop
the outlier rows and, after that, the rows with a remaining null. -/
def cleanDataset (raws : List RawRow) : List Observation × CleaningReport :=
  let rows := raws.map coerceRow
  let total := rows.length
  let removed := (rows.filter (fun r => rowIsOutlier rows r)).length
  let kept := rows.filter (fun r => !(rowIsOutlier rows r))
  let cleaned := kept.filter (fun r => !(hasNullNumeric r))
  (cleaned, ⟨total, removed, total - removed⟩)

/-- Spec-side reading (for the refinement claim about the cleaner): one
field triggers iff it has a value, its dataset-wide population
standard deviation is non-zero, and `|x − μ| / σ` exceeds 3.0 — written
here from the words of the spec, with `|·|` explicit and σ² the population
variance. -/
def specFieldTriggers (rows : List Observation) (f : String) (r : Observation) : Bool :=
  match r.getField f with
  | none => false
  | some x =>
    let mu := listMean (colValues rows f)
    let var := popVar (colValues rows f)
    if var = 0 then false
    else decide ((3 : ℚ) ^ 2 * var < |x - mu| ^ 2)

/-- Spec-side reading of the whole cleaning contract: the cleaned dataset
is the ordered subsequence of (coerced) rows that are not multivariate
outliers — the absolute z-score of ANY of the three fields exceeding 3.0,
statistics taken dataset-wide before any removal, zero-stddev fields never
triggering — and that, after that removal, have no null numeric field. -/
def cleanDatasetSpec (raws : List RawRow) : List Observation :=
  let rows := raws.map coerceRow
  rows.filter (fun r =>
    !(specFieldTriggers rows "temperature" r ||
      specFieldTriggers rows "salinity" r ||
      specFieldTriggers rows "odo" r) &&
    !(hasNullNumeric r))

/-! ## Observations endpoint pagination (`app/app.py` lines 73–101) -/

/-- An integer request argument as the handler sees it: absent, a string
`int(...)` parses, or a string `int(...)` rejects. -/
inductive IntParam where
  | missing
  | int (i : ℤ)
  | notInt
deriving DecidableEq, Repr

/-- The pagination tail of `get_observations`: `limit` defaults to 100 and
`skip` to 0, unparseable values are 400s, `limit <= 0` and `skip < 0` are
400s, then `limit = min(limit, 1000)` and the matching documents (the
Mongo query result, a collaborator) are paged with
`.skip(skip).limit(limit)`; the payload carries the pre-pagination count. -/
def get_observations {α : Type} (matching : List α) (limitArg skipArg : IntParam) :
    ApiResult (ℕ × List α) :=
  match limitArg with
  | .notInt => .validationError "limit must be an integer"
  | _ =>
    match skipArg with
    | .notInt => .validationError "skip must be an integer"
    | _ =>
      let limit : ℤ := match limitArg with | .int i => i | _ => 100
      let skip : ℤ := match skipArg with | .int i => i | _ => 0
      if limit ≤ 0 then .validationError "limit must be > 0"
      else if skip < 0 then .validationError "skip must be >= 0"
      else
        let limit := min limit 1000
        .ok (matching.length, (matching.drop skip.toNat).take limit.toNat)

/-! ## Helper lemmas -/

lemma strLower_lit_iqr : strLower "iqr" = "iqr" := by decide

lemma strLower_lit_zscore : strLower "z-score" = "z-score" := by decide

lemma sortedVals_sorted (l : List ℚ) : List.Sorted (· ≤ ·) (sortedVals l) :=
  List.sorted_insertionSort _ l

lemma sortedVals_perm (l : List ℚ) : (sortedVals l).Perm l :=
  List.perm_insertionSort _ l

lemma sortedVals_length (l : List ℚ) : (sortedVals l).length = l.length :=
  (sortedVals_perm l).length_eq

lemma foldl_min_le_init (xs : List ℚ) (x : ℚ) : xs.foldl min x ≤ x := by
  induction xs generalizing x with
  | nil => simp
  | cons a t ih =>
    simpa using le_trans (ih (min x a)) (min_le_left x a)

lemma foldl_min_le_mem (xs : List ℚ) (x y : ℚ) (hy : y ∈ xs) : xs.foldl min x ≤ y := by
  induction xs generalizing x with
  | nil => cases hy
  | cons a t ih =>
    rcases List.mem_cons.mp hy with rfl | h
    · simpa using le_trans (foldl_min_le_init t (min x y)) (min_le_right x y)
    · simpa using ih (min x a) h

lemma listMin_le (l : List ℚ) (y : ℚ) (hy : y ∈ l) : listMin l ≤ y := by
  cases l with
  | nil => cases hy
  | cons a t =>
    rcases List.mem_cons.mp hy with rfl | h
    · exact foldl_min_le_init t y
    · exact foldl_min_le_mem t a y h

lemma le_foldl_max_init (xs : List ℚ) (x : ℚ) : x ≤ xs.foldl max x := by
  induction xs generalizing x with
  | nil => simp
  | cons a t ih =>
    simpa using le_trans (le_max_left x a) (ih (max x a))

lemma mem_le_foldl_max (xs : List ℚ) (x y : ℚ) (hy : y ∈ xs) : y ≤ xs.foldl max x := by
  induction xs generalizing x with
  | nil => cases hy
  | cons a t ih =>
    rcases List.mem_cons.mp hy with rfl | h
    · simpa using le_trans (le_max_right x y) (le_foldl_max_init t (max x y))
    · simpa using ih (max x a) h

lemma le_listMax (l : List ℚ) (y : ℚ) (hy : y ∈ l) : y ≤ listMax l := by
  cases l with
  | nil => cases hy
  | cons a t =>
    rcases List.mem_cons.mp hy with rfl | h
    · exact le_foldl_max_init t y
    · exact mem_le_foldl_max t a y h

lemma getD_lo_le_hi (s : List ℚ) (hs : List.Sorted (· ≤ ·) s) (i : ℕ) (hin : i < s.length) :
    s.getD i 0 ≤ s.getD (i + 1) (s.getD i 0) := by
  by_cases h1 : i + 1 < s.length
  · rw [List.getD_eq_getElem s _ hin, List.getD_eq_getElem s _ h1]
    exact List.pairwise_iff_getElem.mp hs i (i + 1) hin h1 (Nat.lt_succ_self i)
  · rw [List.getD_eq_default s _ (Nat.le_of_not_lt h1)]

lemma toNat_floor_cast (h : ℚ) (h0 : 0 ≤ h) :
    (((Int.floor h).toNat : ℚ)) = ((Int.floor h : ℤ) : ℚ) := by
  exact_mod_cast Int.toNat_of_nonneg (Int.floor_nonneg.mpr h0)

lemma toNat_floor_le (h : ℚ) (h0 : 0 ≤ h) : (((Int.floor h).toNat : ℚ)) ≤ h := by
  rw [toNat_floor_cast h h0]; exact Int.floor_le h

lemma lt_toNat_floor_add_one (h : ℚ) (h0 : 0 ≤ h) : h < (((Int.floor h).toNat : ℚ)) + 1 := by
  rw [toNat_floor_cast h h0]; exact Int.lt_floor_add_one h

lemma toNat_floor_lt_of_le (h : ℚ) (n : ℕ) (h0 : 0 ≤ h) (hub : h ≤ (n : ℚ) - 1) :
    (Int.floor h).toNat < n := by
  have h1 := toNat_floor_le h h0
  have h2 : (((Int.floor h).toNat : ℚ)) + 1 ≤ (n : ℚ) := by linarith
  have h3 : (Int.floor h).toNat + 1 ≤ n := by exact_mod_cast h2
  omega

lemma get_le_interpAt (s : List ℚ) (hs : List.Sorted (· ≤ ·) s) (h : ℚ) (h0 : 0 ≤ h)
    (hin : (Int.floor h).toNat < s.length) :
    s.getD (Int.floor h).toNat 0 ≤ interpAt s h := by
  simp only [interpAt]
  have hf0 : 0 ≤ h - (((Int.floor h).toNat : ℚ)) := by
    have := toNat_floor_le h h0; linarith
  have hlohi := getD_lo_le_hi s hs _ hin
  nlinarith [hlohi, hf0]

lemma interpAt_le_hi (s : List ℚ) (hs : List.Sorted (· ≤ ·) s) (h : ℚ) (h0 : 0 ≤ h)
    (hin : (Int.floor h).toNat < s.length) :
    interpAt s h ≤ s.getD ((Int.floor h).toNat + 1) (s.getD (Int.floor h).toNat 0) := by
  simp only [interpAt]
  have hf1 : h - (((Int.floor h).toNat : ℚ)) ≤ 1 := by
    have := lt_toNat_floor_add_one h h0; linarith
  have hf0 : 0 ≤ h - (((Int.floor h).toNat : ℚ)) := by
    have := toNat_floor_le h h0; linarith
  have hlohi := getD_lo_le_hi s hs _ hin
  nlinarith [hlohi, hf0, hf1]

lemma interpAt_mono (s : List ℚ) (hs : List.Sorted (· ≤ ·) s) {h h' : ℚ}
    (h0 : 0 ≤ h) (hle : h ≤ h') (hub : h' ≤ (s.length : ℚ) - 1) :
    interpAt s h ≤ interpAt s h' := by
  have h0' : 0 ≤ h' := le_trans h0 hle
  have hin' : (Int.floor h').toNat < s.length := toNat_floor_lt_of_le h' s.length h0' hub
  have hii' : (Int.floor h).toNat ≤ (Int.floor h').toNat :=
    Int.toNat_le_toNat (Int.floor_mono hle)
  have hin : (Int.floor h).toNat < s.length := lt_of_le_of_lt hii' hin'
  rcases lt_or_eq_of_le hii' with hii | hii
  · have hsucc : (Int.floor h).toNat + 1 ≤ (Int.floor h').toNat := hii
    have hsuccn : (Int.floor h).toNat + 1 < s.length := lt_of_le_of_lt hsucc hin'
    have step1 : interpAt s h ≤
        s.getD ((Int.floor h).toNat + 1) (s.getD (Int.floor h).toNat 0) :=
      interpAt_le_hi s hs h h0 hin
    have step2 : s.getD ((Int.floor h).toNat + 1) (s.getD (Int.floor h).toNat 0) ≤
        s.getD (Int.floor h').toNat 0 := by
      rw [List.getD_eq_getElem s _ hsuccn, List.getD_eq_getElem s _ hin']
      have hrel := hs.rel_get_of_le
        (a := ⟨(Int.floor h).toNat + 1, hsuccn⟩) (b := ⟨(Int.floor h').toNat, hin'⟩)
        (Fin.mk_le_mk.mpr hsucc)
      simpa [List.get_eq_getElem] using hrel
    have step3 : s.getD (Int.floor h').toNat 0 ≤ interpAt s h' :=
      get_le_interpAt s hs h' h0' hin'
    exact le_trans step1 (le_trans step2 step3)
  · simp only [interpAt, hii]
    have hlohi := getD_lo_le_hi s hs _ hin'
    have hhh : h - (((Int.floor h').toNat : ℚ)) ≤ h' - (((Int.floor h').toNat : ℚ)) := by
      linarith
    nlinarith [hlohi, hhh]

lemma percentile_mono (values : List ℚ) (hne : values ≠ []) {p p' : ℚ}
    (hp0 : 0 ≤ p) (hpp : p ≤ p') (hp100 : p' ≤ 100) :
    percentile values p ≤ percentile values p' := by
  have hn1q : (1 : ℚ) ≤ (values.length : ℚ) := by
    exact_mod_cast List.length_pos.mpr hne
  apply interpAt_mono (sortedVals values) (sortedVals_sorted values)
  · exact mul_nonneg (by positivity) (by linarith)
  · apply mul_le_mul_of_nonneg_right (by linarith) (by linarith)
  · rw [sortedVals_length]
    nlinarith

lemma listMin_le_percentile (values : List ℚ) (hne : values ≠ []) {p : ℚ}
    (hp0 : 0 ≤ p) (hp100 : p ≤ 100) :
    listMin values ≤ percentile values p := by
  have hn1q : (1 : ℚ) ≤ (values.length : ℚ) := by
    exact_mod_cast List.length_pos.mpr hne
  have h0 : 0 ≤ p / 100 * ((values.length : ℚ) - 1) :=
    mul_nonneg (by positivity) (by linarith)
  have hub : p / 100 * ((values.length : ℚ) - 1) ≤ ((sortedVals values).length : ℚ) - 1 := by
    rw [sortedVals_length]; nlinarith
  have hin : (Int.floor (p / 100 * ((values.length : ℚ) - 1))).toNat <
      (sortedVals values).length := toNat_floor_lt_of_le _ _ h0 hub
  rw [percentile]
  refine le_trans ?_ (get_le_interpAt (sortedVals values) (sortedVals_sorted values) _ h0 hin)
  rw [List.getD_eq_getElem _ _ hin]
  exact listMin_le values _ ((sortedVals_perm values).mem_iff.mp (List.getElem_mem _))

lemma percentile_le_listMax (values : List ℚ) (hne : values ≠ []) {p : ℚ}
    (hp0 : 0 ≤ p) (hp100 : p ≤ 100) :
    percentile values p ≤ listMax values := by
  have hn1q : (1 : ℚ) ≤ (values.length : ℚ) := by
    exact_mod_cast List.length_pos.mpr hne
  have h0 : 0 ≤ p / 100 * ((values.length : ℚ) - 1) :=
    mul_nonneg (by positivity) (by linarith)
  have hub : p / 100 * ((values.length : ℚ) - 1) ≤ ((sortedVals values).length : ℚ) - 1 := by
    rw [sortedVals_length]; nlinarith
  have hin : (Int.floor (p / 100 * ((values.length : ℚ) - 1))).toNat <
      (sortedVals values).length := toNat_floor_lt_of_le _ _ h0 hub
  rw [percentile]
  refine le_trans (interpAt_le_hi (sortedVals values) (sortedVals_sorted values) _ h0 hin) ?_
  by_cases h1 : (Int.floor (p / 100 * ((values.length : ℚ) - 1))).toNat + 1 <
      (sortedVals values).length
  · rw [List.getD_eq_getElem _ _ h1]
    exact le_listMax values _ ((sortedVals_perm values).mem_iff.mp (List.getElem_mem _))
  · rw [List.getD_eq_default _ _ (Nat.le_of_not_lt h1), List.getD_eq_getElem _ _ hin]
    exact le_listMax values _ ((sortedVals_perm values).mem_iff.mp (List.getElem_mem _))

lemma percentile_c6_25 : percentile [1, 2, 3, 4, 5, 100] 25 = 9 / 4 := by
  simp only [percentile, interpAt, sortedVals, List.insertionSort, List.orderedInsert]
  have h1 : Int.toNat 1 = 1 := rfl
  norm_num [h1]

lemma percentile_c6_75 : percentile [1, 2, 3, 4, 5, 100] 75 = 19 / 4 := by
  simp only [percentile, interpAt, sortedVals, List.insertionSort, List.orderedInsert]
  have h3 : Int.toNat 3 = 3 := rfl
  norm_num [h3]

lemma specFieldTriggers_eq_zFlagCell (rows : List Observation) (f : String) (r : Observation) :
    specFieldTriggers rows f r =
      zFlagCell (r.getField f) (colMean rows f) (colVar rows f) := by
  cases hx : r.getField f with
  | none => simp [specFieldTriggers, zFlagCell, hx]
  | some x =>
    simp only [specFieldTriggers, zFlagCell, hx, colMean, colVar]
    by_cases hv : popVar (colValues rows f) = 0
    · rw [if_pos hv, if_pos hv]
    · rw [if_neg hv, if_neg hv]
      congr 1
      simp only [THRESH, sq_abs]

lemma rowIsOutlier_eq_spec (rows : List Observation) (r : Observation) :
    rowIsOutlier rows r =
      (specFieldTriggers rows "temperature" r || specFieldTriggers rows "salinity" r ||
        specFieldTriggers rows "odo" r) := by
  rw [specFieldTriggers_eq_zFlagCell, specFieldTriggers_eq_zFlagCell,
    specFieldTriggers_eq_zFlagCell]
  rfl

/-! ## Claim theorems -/

/-- C1 counterexample: on the non-empty sample set `[1, 2, 3]` no numeric
entry of the summary returned by `get_stats` carries the population
standard deviation (no reported value squares to the population variance
`2/3`), refuting the claim that the summary includes it alongside count,
mean, min, max and the quantiles. -/
theorem C1_stats_no_stddev_counterexample :
    ¬ ∃ v ∈ statsNumericEntries (get_stats_field [1, 2, 3]),
      v ^ 2 = popVar [1, 2, 3] := by
  have hp : popVar [1, 2, 3] = 2 / 3 := by norm_num [popVar, listMean]
  have h25 : percentile [1, 2, 3] 25 = 3 / 2 := by
    simp only [percentile, interpAt, sortedVals, List.insertionSort, List.orderedInsert]
    norm_num
  have h50 : percentile [1, 2, 3] 50 = 2 := by
    simp only [percentile, interpAt, sortedVals, List.insertionSort, List.orderedInsert]
    norm_num
  have h75 : percentile [1, 2, 3] 75 = 5 / 2 := by
    simp only [percentile, interpAt, sortedVals, List.insertionSort, List.orderedInsert]
    norm_num
  have hs : statsNumericEntries (get_stats_field [1, 2, 3]) = [2, 1, 3, 3/2, 2, 5/2] := by
    rw [get_stats_field, if_neg (by decide : ¬ ([1, 2, 3] : List ℚ) = [])]
    simp only [statsNumericEntries]
    norm_num [listMean, listMin, listMax, h25, h50, h75, List.filterMap]
  rintro ⟨v, hv, hsq⟩
  rw [hs] at hv
  rw [hp] at hsq
  simp only [List.mem_cons, List.not_mem_nil, or_false] at hv
  rcases hv with rfl | rfl | rfl | rfl | rfl | rfl <;> norm_num at hsq

/-- C1 amended: for every non-empty sample set, `get_stats` returns count,
mean, min, max and the 25/50/75 quantiles — and nothing else: its keys are
exactly `count`, `mean`, `min`, `max`, `percentiles`; no standard
deviation field is included. -/
theorem C1_stats_shape_amended (values : List ℚ) (h : values ≠ []) :
    get_stats_field values =
      { count := values.length, mean := some (listMean values),
        min := some (listMin values), max := some (listMax values),
        percentiles := { p25 := some (percentile values 25),
                         p50 := some (percentile values 50),
                         p75 := some (percentile values 75) } } ∧
    "std" ∉ fieldStatsKeys ∧ "stddev" ∉ fieldStatsKeys := by
  refine ⟨?_, by decide, by decide⟩
  rw [get_stats_field, if_neg h]

/-- C1 witness: the amended statement instantiated at `[1, 2, 3]`. -/
theorem C1_stats_shape_witness :
    get_stats_field [1, 2, 3] =
      { count := ([1, 2, 3] : List ℚ).length, mean := some (listMean [1, 2, 3]),
        min := some (listMin [1, 2, 3]), max := some (listMax [1, 2, 3]),
        percentiles := { p25 := some (percentile [1, 2, 3] 25),
                         p50 := some (percentile [1, 2, 3] 50),
                         p75 := some (percentile [1, 2, 3] 75) } } ∧
    "std" ∉ fieldStatsKeys ∧ "stddev" ∉ fieldStatsKeys :=
  C1_stats_shape_amended [1, 2, 3] (by decide)

/-- C2 counterexample: the selector `"zscore"` is rejected with a
validation error (the code accepts only `"iqr"` and `"z-score"`), refuting
the claim that `"zscore"` succeeds. -/
theorem C2_zscore_selector_counterexample :
    get_outliers [⟨some 1, none, none⟩] (some "temperature") (some "zscore") (.num 3) =
      .validationError "method must be 'iqr' or 'z-score'" := by decide

/-- C2 amended: the accepted method selectors are exactly `"iqr"` and
`"z-score"` (compared after lowercasing): any other selector yields the
method validation error, and the selector `"z-score"` succeeds. -/
theorem C2_method_selectors_amended (coll : List Observation) (m : String) (kArg : KParam)
    (hm : strLower m ∉ (["iqr", "z-score"] : List String)) :
    get_outliers coll (some "temperature") (some m) kArg =
      .validationError "method must be 'iqr' or 'z-score'" ∧
    ∃ res, get_outliers coll (some "temperature") (some "z-score") (.num 3) = .ok res := by
  constructor
  · simp only [get_outliers, Option.getD]
    rw [if_neg (by decide : ¬ ("temperature" : String) = ""),
      if_neg (not_not_intro (by decide :
        ("temperature" : String) ∈ (["temperature", "salinity", "odo"] : List String))),
      if_pos hm]
  · simp only [get_outliers, Option.getD, strLower_lit_zscore]
    rw [if_neg (by decide : ¬ ("temperature" : String) = ""),
      if_neg (not_not_intro (by decide :
        ("temperature" : String) ∈ (["temperature", "salinity", "odo"] : List String))),
      if_neg (by decide : ¬ ("z-score" : String) ∉ (["iqr", "z-score"] : List String))]
    by_cases hv : extractValues coll "temperature" = []
    · exact ⟨[], by rw [if_pos hv]⟩
    · exact ⟨_, by rw [if_neg hv, if_neg (by decide : ¬ ("z-score" : String) = "iqr")]⟩

/-- C2 witness: the amended statement at `m = "zscore"`, the selector the
in-repo dashboard sends. -/
theorem C2_method_selectors_witness :
    get_outliers [] (some "temperature") (some "zscore") KParam.missing =
      .validationError "method must be 'iqr' or 'z-score'" ∧
    ∃ res, get_outliers [] (some "temperature") (some "z-score") (.num 3) = .ok res :=
  C2_method_selectors_amended [] "zscore" KParam.missing (by decide)

/-- C3 counterexample: the negative sensitivity `k = -1` is accepted and
classification proceeds (every sample of `[0, 1]` is flagged), refuting
the claim that a non-positive `k` yields a validation error. -/
theorem C3_nonpositive_k_counterexample :
    get_outliers [⟨some 0, none, none⟩, ⟨some 1, none, none⟩]
      (some "temperature") (some "z-score") (.num (-1)) = .ok [(0, 0), (1, 1)] := by
  have hv : extractValues [⟨some 0, none, none⟩, ⟨some 1, none, none⟩] "temperature"
      = [0, 1] := rfl
  simp only [get_outliers, Option.getD, strLower_lit_zscore, hv, zscoreOutliers, zAbsGt]
  norm_num [listMean, popVar, List.enum, List.enumFrom, List.filter]
  rfl

/-- C3 amended: with a valid field and method, a non-numeric `k` yields
the `k` validation error, but a numeric non-positive `k` (`k ≤ 0`) is
accepted and classification proceeds to a success result. -/
theorem C3_k_validation_amended (coll : List Observation) (m : String)
    (hm : strLower m ∈ (["iqr", "z-score"] : List String)) :
    get_outliers coll (some "temperature") (some m) .notNumeric =
      .validationError "k must be a valid number" ∧
    ∀ q : ℚ, q ≤ 0 → ∃ res,
      get_outliers coll (some "temperature") (some m) (.num q) = .ok res := by
  constructor
  · simp only [get_outliers, Option.getD]
    rw [if_neg (by decide : ¬ ("temperature" : String) = ""),
      if_neg (not_not_intro (by decide :
        ("temperature" : String) ∈ (["temperature", "salinity", "odo"] : List String))),
      if_neg (not_not_intro hm)]
  · intro q hq
    simp only [get_outliers, Option.getD]
    rw [if_neg (by decide : ¬ ("temperature" : String) = ""),
      if_neg (not_not_intro (by decide :
        ("temperature" : String) ∈ (["temperature", "salinity", "odo"] : List String))),
      if_neg (not_not_intro hm)]
    by_cases hv : extractValues coll "temperature" = []
    · exact ⟨[], by rw [if_pos hv]⟩
    · by_cases hiqr : strLower m = "iqr"
      · exact ⟨_, by rw [if_neg hv, if_pos hiqr]⟩
      · exact ⟨_, by rw [if_neg hv, if_neg hiqr]⟩

/-- C3 witness: the amended statement at method `"iqr"` and `k = 0`. -/
theorem C3_k_validation_witness :
    (get_outliers [] (some "temperature") (some "iqr") KParam.notNumeric =
      .validationError "k must be a valid number") ∧
    (0 : ℚ) ≤ 0 ∧
    ∃ res, get_outliers [] (some "temperature") (some "iqr") (.num 0) = .ok res :=
  ⟨(C3_k_validation_amended [] "iqr" (by decide)).1, le_refl 0,
    (C3_k_validation_amended [] "iqr" (by decide)).2 0 (le_refl 0)⟩

/-- C4 counterexample: with the z-score method and no `k` supplied, the
handler behaves as `k = 1.5` (flagging the sample with `|z| = 2`), not as
`k = 3.0` (which flags nothing), refuting the claim that the default for
z-score is 3.0. -/
theorem C4_default_k_counterexample :
    get_outliers ([0, 0, 0, 0, 1].map (fun v => ⟨some v, none, none⟩))
      (some "temperature") (some "z-score") .missing = .ok [(4, 1)] ∧
    get_outliers ([0, 0, 0, 0, 1].map (fun v => ⟨some v, none, none⟩))
      (some "temperature") (some "z-score") (.num 3) = .ok [] := by
  have hv : extractValues ([0, 0, 0, 0, 1].map (fun v => ⟨some v, none, none⟩)) "temperature"
      = [0, 0, 0, 0, 1] := rfl
  constructor <;>
  · simp only [get_outliers, Option.getD, strLower_lit_zscore, hv, zscoreOutliers, zAbsGt]
    norm_num [listMean, popVar, List.enum, List.enumFrom, List.filter]
    rfl

/-- C4 amended: when no `k` is supplied, `get_outliers` uses the default
sensitivity 1.5 for both methods (the default string is `"1.5"` regardless
of the selected method). -/
theorem C4_default_k_amended (coll : List Observation) (field : Option String)
    (m : Option String) :
    get_outliers coll field m .missing = get_outliers coll field m (.num (3 / 2)) := rfl

/-- C5: the batch cleaner produces exactly the ordered subsequence of
coerced rows that are not multivariate outliers (any-field `|z| > 3.0`
against dataset-wide pre-removal population statistics, zero-stddev fields
never triggering) and that, after that removal, have no null numeric
field — the spec-side reading `cleanDatasetSpec` coincides with the code,
and the output is a subsequence of the input rows. -/
theorem C5_clean_refines_spec (raws : List RawRow) :
    (cleanDataset raws).1 = cleanDatasetSpec raws ∧
    (cleanDataset raws).1.Sublist (raws.map coerceRow) := by
  constructor
  · simp only [cleanDataset, cleanDatasetSpec]
    rw [List.filter_filter]
    apply List.filter_congr
    intro r hr
    rw [rowIsOutlier_eq_spec, Bool.and_comm]
  · simp only [cleanDataset]
    exact (List.filter_sublist _).trans (List.filter_sublist _)

/-- C6: on samples `[1,2,3,4,5,100]` with the IQR method and `k = 1.5`,
the linear-interpolation quantiles give `Q1 = 2.25` and `Q3 = 4.75`, hence
`IQR = 2.5` and bounds `[-1.5, 8.5]`, and the only flagged sample is value
100 at index 5. -/
theorem C6_iqr_scenario :
    percentile [1, 2, 3, 4, 5, 100] 25 = 9 / 4 ∧
    percentile [1, 2, 3, 4, 5, 100] 75 = 19 / 4 ∧
    percentile [1, 2, 3, 4, 5, 100] 75 - percentile [1, 2, 3, 4, 5, 100] 25 = 5 / 2 ∧
    percentile [1, 2, 3, 4, 5, 100] 25 -
      (3 / 2) * (percentile [1, 2, 3, 4, 5, 100] 75 - percentile [1, 2, 3, 4, 5, 100] 25) =
      -(3 / 2) ∧
    percentile [1, 2, 3, 4, 5, 100] 75 +
      (3 / 2) * (percentile [1, 2, 3, 4, 5, 100] 75 - percentile [1, 2, 3, 4, 5, 100] 25) =
      17 / 2 ∧
    get_outliers ([1, 2, 3, 4, 5, 100].map (fun v => ⟨some v, none, none⟩))
      (some "temperature") (some "iqr") (.num (3 / 2)) = .ok [(5, 100)] := by
  refine ⟨percentile_c6_25, percentile_c6_75, ?_, ?_, ?_, ?_⟩
  · rw [percentile_c6_25, percentile_c6_75]; norm_num
  · rw [percentile_c6_25, percentile_c6_75]; norm_num
  · rw [percentile_c6_25, percentile_c6_75]; norm_num
  · have hv : extractValues ([1, 2, 3, 4, 5, 100].map (fun v => ⟨some v, none, none⟩))
        "temperature" = [1, 2, 3, 4, 5, 100] := rfl
    simp only [get_outliers, Option.getD, strLower_lit_iqr, hv, iqrOutliers]
    rw [percentile_c6_25, percentile_c6_75]
    norm_num [List.filter, List.enum, List.enumFrom, decide_eq_true_eq]
    rfl

/-- C7: for every collection whose field sample set is non-empty with
population standard deviation exactly 0, and every `k > 0`, z-score
outlier detection succeeds with zero outliers. -/
theorem C7_zscore_zero_variance (coll : List Observation) (f : String) (k : ℚ)
    (hf : f ∈ (["temperature", "salinity", "odo"] : List String))
    (hne : extractValues coll f ≠ [])
    (hvar : popVar (extractValues coll f) = 0) (hk : 0 < k) :
    get_outliers coll (some f) (some "z-score") (.num k) = .ok [] := by
  have hf0 : ¬ f = "" := by
    have hc : f = "temperature" ∨ f = "salinity" ∨ f = "odo" := by simpa using hf
    rcases hc with rfl | rfl | rfl <;> decide
  simp only [get_outliers, Option.getD, strLower_lit_zscore]
  rw [if_neg hf0, if_neg (not_not_intro hf),
    if_neg (by decide : ¬ ("z-score" : String) ∉ (["iqr", "z-score"] : List String)),
    if_neg hne, if_neg (by decide : ¬ ("z-score" : String) = "iqr")]
  simp only [zscoreOutliers]
  rw [if_pos hvar]

/-- C7 witness: the zero-variance sample set `[10, 10, 10, 10]` with
`k = 3`. -/
theorem C7_zscore_zero_variance_witness :
    extractValues ([10, 10, 10, 10].map (fun v => ⟨some v, none, none⟩)) "temperature" ≠ [] ∧
    popVar (extractValues ([10, 10, 10, 10].map (fun v => ⟨some v, none, none⟩))
      "temperature") = 0 ∧
    get_outliers ([10, 10, 10, 10].map (fun v => ⟨some v, none, none⟩))
      (some "temperature") (some "z-score") (.num 3) = .ok [] := by
  have hv : extractValues ([10, 10, 10, 10].map (fun v => ⟨some v, none, none⟩)) "temperature"
      = [10, 10, 10, 10] := rfl
  have hvar : popVar (extractValues ([10, 10, 10, 10].map (fun v => ⟨some v, none, none⟩))
      "temperature") = 0 := by
    rw [hv]; norm_num [popVar, listMean]
  exact ⟨by rw [hv]; decide, hvar,
    C7_zscore_zero_variance _ "temperature" 3 (by decide) (by rw [hv]; decide) hvar
      (by norm_num)⟩

/-- C8: for every collection and field with a non-empty (null-filtered)
sample set, the summary has count equal to the number of non-null inputs
and its statistics satisfy `min ≤ Q25 ≤ Q50 ≤ Q75 ≤ max`. -/
theorem C8_summary_count_and_quantile_chain (coll : List Observation) (f : String)
    (hne : extractValues coll f ≠ []) :
    (get_stats_field (extractValues coll f)).count = (extractValues coll f).length ∧
    (get_stats_field (extractValues coll f)).min = some (listMin (extractValues coll f)) ∧
    (get_stats_field (extractValues coll f)).max = some (listMax (extractValues coll f)) ∧
    (get_stats_field (extractValues coll f)).percentiles =
      ⟨some (percentile (extractValues coll f) 25),
       some (percentile (extractValues coll f) 50),
       some (percentile (extractValues coll f) 75)⟩ ∧
    listMin (extractValues coll f) ≤ percentile (extractValues coll f) 25 ∧
    percentile (extractValues coll f) 25 ≤ percentile (extractValues coll f) 50 ∧
    percentile (extractValues coll f) 50 ≤ percentile (extractValues coll f) 75 ∧
    percentile (extractValues coll f) 75 ≤ listMax (extractValues coll f) := by
  rw [get_stats_field, if_neg hne]
  refine ⟨rfl, rfl, rfl, rfl, ?_, ?_, ?_, ?_⟩
  · exact listMin_le_percentile _ hne (by norm_num) (by norm_num)
  · exact percentile_mono _ hne (by norm_num) (by norm_num) (by norm_num)
  · exact percentile_mono _ hne (by norm_num) (by norm_num) (by norm_num)
  · exact percentile_le_listMax _ hne (by norm_num) (by norm_num)

/-- C8 witness: the chain instantiated at the field sample set `[3, 1, 2]`. -/
theorem C8_summary_chain_witness :
    (get_stats_field (extractValues
      [⟨some 3, none, none⟩, ⟨some 1, none, none⟩, ⟨some 2, none, none⟩] "temperature")).count =
      (extractValues
        [⟨some 3, none, none⟩, ⟨some 1, none, none⟩, ⟨some 2, none, none⟩]
        "temperature").length ∧
    (get_stats_field (extractValues
      [⟨some 3, none, none⟩, ⟨some 1, none, none⟩, ⟨some 2, none, none⟩] "temperature")).min =
      some (listMin (extractValues
        [⟨some 3, none, none⟩, ⟨some 1, none, none⟩, ⟨some 2, none, none⟩] "temperature")) ∧
    (get_stats_field (extractValues
      [⟨some 3, none, none⟩, ⟨some 1, none, none⟩, ⟨some 2, none, none⟩] "temperature")).max =
      some (listMax (extractValues
        [⟨some 3, none, none⟩, ⟨some 1, none, none⟩, ⟨some 2, none, none⟩] "temperature")) ∧
    (get_stats_field (extractValues
      [⟨some 3, none, none⟩, ⟨some 1, none, none⟩, ⟨some 2, none, none⟩]
      "temperature")).percentiles =
      ⟨some (percentile (extractValues
          [⟨some 3, none, none⟩, ⟨some 1, none, none⟩, ⟨some 2, none, none⟩] "temperature") 25),
       some (percentile (extractValues
          [⟨some 3, none, none⟩, ⟨some 1, none, none⟩, ⟨some 2, none, none⟩] "temperature") 50),
       some (percentile (extractValues
          [⟨some 3, none, none⟩, ⟨some 1, none, none⟩, ⟨some 2, none, none⟩]
          "temperature") 75)⟩ ∧
    listMin (extractValues
        [⟨some 3, none, none⟩, ⟨some 1, none, none⟩, ⟨some 2, none, none⟩] "temperature") ≤
      percentile (extractValues
        [⟨some 3, none, none⟩, ⟨some 1, none, none⟩, ⟨some 2, none, none⟩] "temperature") 25 ∧
    percentile (extractValues
        [⟨some 3, none, none⟩, ⟨some 1, none, none⟩, ⟨some 2, none, none⟩] "temperature") 25 ≤
      percentile (extractValues
        [⟨some 3, none, none⟩, ⟨some 1, none, none⟩, ⟨some 2, none, none⟩] "temperature") 50 ∧
    percentile (extractValues
        [⟨some 3, none, none⟩, ⟨some 1, none, none⟩, ⟨some 2, none, none⟩] "temperature") 50 ≤
      percentile (extractValues
        [⟨some 3, none, none⟩, ⟨some 1, none, none⟩, ⟨some 2, none, none⟩] "temperature") 75 ∧
    percentile (extractValues
        [⟨some 3, none, none⟩, ⟨some 1, none, none⟩, ⟨some 2, none, none⟩] "temperature") 75 ≤
      listMax (extractValues
        [⟨some 3, none, none⟩, ⟨some 1, none, none⟩, ⟨some 2, none, none⟩] "temperature") :=
  C8_summary_count_and_quantile_chain
    [⟨some 3, none, none⟩, ⟨some 1, none, none⟩, ⟨some 2, none, none⟩] "temperature"
    (by decide)

/-- C9: for every run of the batch cleaner the report satisfies
`rows_remaining = rows_total − rows_removed` with `rows_removed` counting
only the multivariate-z-flagged rows, the cleaned output is never longer
than `rows_remaining`, and on a concrete dataset with a null cell the
reported `rows_remaining` (2) strictly exceeds the cleaned output length
(1), because null-dropped rows are not counted as removed. -/
theorem C9_report_identity :
    (∀ raws : List RawRow,
      (cleanDataset raws).2.rows_remaining =
        (cleanDataset raws).2.rows_total - (cleanDataset raws).2.rows_removed ∧
      (cleanDataset raws).2.rows_removed =
        ((raws.map coerceRow).filter
          (fun r => rowIsOutlier (raws.map coerceRow) r)).length ∧
      (cleanDataset raws).1.length ≤ (cleanDataset raws).2.rows_remaining) ∧
    ((cleanDataset [⟨.num 1, .num 1, .num 1⟩, ⟨.text, .num 1, .num 1⟩]).2.rows_remaining = 2 ∧
     (cleanDataset [⟨.num 1, .num 1, .num 1⟩, ⟨.text, .num 1, .num 1⟩]).1.length = 1) := by
  constructor
  · intro raws
    refine ⟨rfl, rfl, ?_⟩
    simp only [cleanDataset]
    have hle : (((raws.map coerceRow).filter
        (fun r => !(rowIsOutlier (raws.map coerceRow) r))).filter
          (fun r => !(hasNullNumeric r))).length ≤
        ((raws.map coerceRow).filter
          (fun r => !(rowIsOutlier (raws.map coerceRow) r))).length :=
      List.length_filter_le _ _
    have hsplit : ((raws.map coerceRow).filter
        (fun r => rowIsOutlier (raws.map coerceRow) r)).length +
        ((raws.map coerceRow).filter
          (fun r => !(rowIsOutlier (raws.map coerceRow) r))).length =
        (raws.map coerceRow).length := by
      rw [← List.countP_eq_length_filter, ← List.countP_eq_length_filter]
      simpa using (List.length_eq_countP_add_countP
        (fun r => rowIsOutlier (raws.map coerceRow) r) (raws.map coerceRow)).symm
    omega
  · have hv1 : colValues [⟨some 1, some 1, some 1⟩, ⟨none, some 1, some 1⟩] "temperature"
        = [1] := rfl
    have hv2 : colValues [⟨some 1, some 1, some 1⟩, ⟨none, some 1, some 1⟩] "salinity"
        = [1, 1] := rfl
    have hv3 : colValues [⟨some 1, some 1, some 1⟩, ⟨none, some 1, some 1⟩] "odo"
        = [1, 1] := rfl
    have h1 : rowIsOutlier [⟨some 1, some 1, some 1⟩, ⟨none, some 1, some 1⟩]
        ⟨some 1, some 1, some 1⟩ = false := by
      simp only [rowIsOutlier, zFlagCell, colMean, colVar, hv1, hv2, hv3]
      norm_num [popVar, listMean]
    have h2 : rowIsOutlier [⟨some 1, some 1, some 1⟩, ⟨none, some 1, some 1⟩]
        ⟨none, some 1, some 1⟩ = false := by
      simp only [rowIsOutlier, zFlagCell, colMean, colVar, hv1, hv2, hv3]
      norm_num [popVar, listMean]
    have hc : cleanDataset [⟨.num 1, .num 1, .num 1⟩, ⟨.text, .num 1, .num 1⟩] =
        ([⟨some 1, some 1, some 1⟩], ⟨2, 0, 2⟩) := by
      simp only [cleanDataset, List.map, coerceRow, Cell.toNumeric]
      simp only [List.filter_cons, List.filter_nil, h1, h2, Bool.not_false, Bool.not_true,
        if_true, if_false, hasNullNumeric]
      rfl
    rw [hc]
    exact ⟨rfl, rfl⟩

/-- C10: an observations query with an integer limit strictly greater than
1000 is not rejected: it succeeds with the limit silently capped to 1000
(so at most 1000 items are returned), while a limit `≤ 0` is rejected
with a validation error. -/
theorem C10_limit_cap (coll : List Observation) (l l' : ℤ)
    (hl : 1000 < l) (hl' : l' ≤ 0) :
    get_observations coll (.int l) .missing = .ok (coll.length, coll.take 1000) ∧
    (coll.take 1000).length ≤ 1000 ∧
    get_observations coll (.int l') .missing = .validationError "limit must be > 0" := by
  refine ⟨?_, ?_, ?_⟩
  · simp only [get_observations]
    rw [if_neg (not_le.mpr (lt_trans (by norm_num) hl)),
      if_neg (by decide : ¬ ((0 : ℤ) < 0)),
      min_eq_right (le_of_lt hl)]
    simp
  · exact List.length_take_le 1000 coll
  · simp only [get_observations]
    rw [if_pos hl']

/-- C10 witness: a collection of 1001 documents queried with limit 2000
(capped to 1000 items) and the rejected limit 0. -/
theorem C10_limit_cap_witness :
    get_observations (List.replicate 1001 (⟨none, none, none⟩ : Observation))
      (.int 2000) .missing =
      .ok ((List.replicate 1001 (⟨none, none, none⟩ : Observation)).length,
        (List.replicate 1001 (⟨none, none, none⟩ : Observation)).take 1000) ∧
    ((List.replicate 1001 (⟨none, none, none⟩ : Observation)).take 1000).length ≤ 1000 ∧
    get_observations (List.replicate 1001 (⟨none, none, none⟩ : Observation))
      (.int 0) .missing = .validationError "limit must be > 0" :=
  C10_limit_cap (List.replicate 1001 (⟨none, none, none⟩ : Observation)) 2000 0
    (by norm_num) (le_refl 0)

end ClassProject
